import Mathlib

/-!
AI-Swap frontend: upload widget and workflow controller.

A shallow embedding of the event handlers of
`frontend/src/components/ImageUpload.js`, `frontend/src/pages/UploadPage.js`
and `frontend/src/pages/ResultPage.js`.

Every handler is a pure function from the component state (and the outcome of
the asynchronous call it awaits) to the new state together with the ordered
list of observable effects it performs: notifications, console traces, calls of
caller-supplied callbacks, requests to the external service, navigation.
-/

namespace AISwap

/-! ## Data model -/

/-- A browser `File`: the fields the handlers read. -/
structure File where
  name : String
  type : String
  size : Nat
deriving DecidableEq, Repr

/-- A thrown JavaScript error object; `message` may be absent. -/
structure JsError where
  message : Option String
deriving DecidableEq, Repr

/-- The multipart body built by `formData.append(field, file)`. -/
abbrev FormData := List (String × File)

/-- Body of the upload response as the client reads it. -/
structure UploadResponse where
  success : Option Bool
  image_id : Option String
  face_detected : Option Bool
  landmarks : Option String
  message : Option String
deriving DecidableEq, Repr

/-- A catalog entry; the client reads `id`, `name`, `description`, `angles`. -/
structure Profession where
  id : String
  name : String
  description : Option String
  angles : Option (List String)
deriving DecidableEq, Repr

/-- The object stored by `setUploadedImage` after a successful upload. -/
structure UploadedImage where
  file : File
  preview : String
  imageId : Option String
  faceDetected : Option Bool
  landmarks : Option String
deriving DecidableEq, Repr

/-- Body of a swap request: `{image_id, profession, angle}`. -/
structure SwapRequest where
  image_id : Option String
  profession : String
  angle : String
deriving DecidableEq, Repr

/-- Body of the swap response as the client reads it. -/
structure SwapResponse where
  success : Option Bool
  result_url : Option String
  angle : Option String
  message : Option String
deriving DecidableEq, Repr

/-- The `state` object passed to `navigate('/result', { state })`. -/
structure NavigationState where
  result : SwapResponse
  originalImage : String
  profession : Profession
deriving DecidableEq, Repr

/-- Observable effects of the handlers, in the order they are performed. -/
inductive Effect where
  | toastError (msg : String)
  | toastSuccess (msg : String)
  | consoleError (label : String) (error : JsError)
  | setIsUploading (value : Bool)
  | onImageUpload (file : File)
  | uploadImage (formData : FormData)
  | createObjectURL (file : File)
  | swapFace (body : SwapRequest)
  | navigate (path : String) (state : NavigationState)
  | navigateTo (path : String)
  | revokeObjectURL (url : String)
  | getProfessions
deriving DecidableEq, Repr

/-! ## JavaScript primitives -/

/-- The method `String.prototype.startsWith`. -/
def startsWith (s p : String) : Bool := p.data.isPrefixOf s.data

/-- Truthiness of a field that is a boolean or missing. -/
def truthy : Option Bool → Bool
  | some true => true
  | _ => false

/-- The expression `v || fallback` for `v` a string or missing: the empty
string and `undefined` are falsy. -/
def orString (v : Option String) (fallback : String) : String :=
  match v with
  | some s => if s.data = [] then fallback else s
  | none => fallback

/-! ## ImageUpload.js -/

/-- Outcome of `onDrop`: the widget's `isUploading` flag and the effects. -/
structure DropResult where
  isUploading : Bool
  effects : List Effect
deriving DecidableEq, Repr

/-- The handler `onDrop` of `ImageUpload`. `onImageUpload` is the
caller-supplied async callback: `.ok ()` when its promise resolves, `.error e`
when it rejects with `e`. -/
def onDrop (onImageUpload : File → Except JsError Unit) (isUploading : Bool)
    (acceptedFiles : List File) : DropResult :=
  match acceptedFiles with
  | [] => ⟨isUploading, []⟩
  | file :: _ =>
    if !startsWith file.type "image/" then
      ⟨isUploading, [.toastError "Please upload an image file (JPEG, PNG, WebP)"]⟩
    else if file.size > 10 * 1024 * 1024 then
      ⟨isUploading, [.toastError "File size must be less than 10MB"]⟩
    else
      match onImageUpload file with
      | .ok _ =>
        ⟨false, [.setIsUploading true, .onImageUpload file,
                 .toastSuccess "Image uploaded successfully!",
                 .setIsUploading false]⟩
      | .error error =>
        ⟨false, [.setIsUploading true, .onImageUpload file,
                 .toastError "Failed to upload image. Please try again.",
                 .consoleError "Upload error:" error,
                 .setIsUploading false]⟩

/-- Whether an effect is an error notification. -/
def Effect.isToastError : Effect → Bool
  | .toastError _ => true
  | _ => false

/-- Whether an effect is any notification. -/
def Effect.isToast : Effect → Bool
  | .toastError _ => true
  | .toastSuccess _ => true
  | _ => false

/-- Whether an effect is a call of the `onImageUpload` callback. -/
def Effect.isOnImageUpload : Effect → Bool
  | .onImageUpload _ => true
  | _ => false

/-- Whether an effect is a swap request. -/
def Effect.isSwapFace : Effect → Bool
  | .swapFace _ => true
  | _ => false

/-- Whether an effect is a navigation. -/
def Effect.isNavigate : Effect → Bool
  | .navigate _ _ => true
  | .navigateTo _ => true
  | _ => false

/-! ## UploadPage.js -/

/-- The `useState` cells of `UploadPage`. -/
structure State where
  uploadedImage : Option UploadedImage
  professions : List Profession
  selectedProfession : Option Profession
  selectedAngle : String
  isProcessing : Bool
  currentStep : Nat
deriving DecidableEq, Repr

/-- The initial values given to `useState`. -/
def initialState : State :=
  { uploadedImage := none
    professions := []
    selectedProfession := none
    selectedAngle := "front"
    isProcessing := false
    currentStep := 1 }

/-- How the promise returned by an async handler settles. -/
inductive Settled where
  | resolved
  | rejected (reason : JsError)
deriving DecidableEq, Repr

/-- Outcome of an async handler: new state, effects, and how it settles. -/
structure AsyncResult where
  state : State
  effects : List Effect
  outcome : Settled
deriving DecidableEq, Repr

/-- Outcome of a handler whose promise always resolves: new state, effects. -/
structure HandlerResult where
  state : State
  effects : List Effect
deriving DecidableEq, Repr

/-- The handler `handleImageUpload`. `uploadImage` is the service call
(`.error e` when it throws `e`), `createObjectURL` is `URL.createObjectURL`. -/
def handleImageUpload (uploadImage : FormData → Except JsError UploadResponse)
    (createObjectURL : File → String) (s : State) (file : File) : AsyncResult :=
  let formData : FormData := [("file", file)]
  let onCatch (error : JsError) : AsyncResult :=
    ⟨s, [.uploadImage formData,
         .toastError (orString error.message "Failed to upload image")],
     .rejected error⟩
  match uploadImage formData with
  | .error error => onCatch error
  | .ok response =>
    if truthy response.success then
      ⟨{ s with
          uploadedImage := some
            { file := file
              preview := createObjectURL file
              imageId := response.image_id
              faceDetected := response.face_detected
              landmarks := response.landmarks }
          currentStep := 2 },
       [.uploadImage formData, .createObjectURL file],
       .resolved⟩
    else
      onCatch ⟨some (orString response.message "Upload failed")⟩

/-- The body `handleSwapFace` sends for an image, a profession and an angle. -/
def swapBody (uploadedImage : UploadedImage) (selectedProfession : Profession)
    (selectedAngle : String) : SwapRequest :=
  { image_id := uploadedImage.imageId
    profession := selectedProfession.id
    angle := selectedAngle }

/-- The part of `handleSwapFace` that runs synchronously, up to the `await`:
the precondition check, `setIsProcessing(true)` and the call of `swapFace`.
Its state is the state of the page while the request is outstanding. -/
def handleSwapFacePending (s : State) : HandlerResult :=
  match s.uploadedImage, s.selectedProfession with
  | some uploadedImage, some selectedProfession =>
    ⟨{ s with isProcessing := true },
     [.swapFace (swapBody uploadedImage selectedProfession s.selectedAngle)]⟩
  | _, _ => ⟨s, [.toastError "Please select an image and profession"]⟩

/-- The part of `handleSwapFace` that runs once the awaited call has settled:
the rest of the `try` block and the `catch` block. -/
def handleSwapFaceSettled (uploadedImage : UploadedImage)
    (selectedProfession : Profession)
    (settled : Except JsError SwapResponse) : List Effect :=
  let onCatch (error : JsError) : List Effect :=
    [.toastError (orString error.message "Failed to process face swap")]
  match settled with
  | .error error => onCatch error
  | .ok response =>
    if truthy response.success then
      [.navigate "/result"
        { result := response
          originalImage := uploadedImage.preview
          profession := selectedProfession }]
    else
      onCatch ⟨some (orString response.message "Face swap failed")⟩

/-- The handler `handleSwapFace`. `swapFace` is the service call (`.error e`
when it throws `e`). The `finally` block ends it with `setIsProcessing(false)`. -/
def handleSwapFace (swapFace : SwapRequest → Except JsError SwapResponse)
    (s : State) : HandlerResult :=
  let pending := handleSwapFacePending s
  match s.uploadedImage, s.selectedProfession with
  | some uploadedImage, some selectedProfession =>
    ⟨{ pending.state with isProcessing := false },
     pending.effects ++
       handleSwapFaceSettled uploadedImage selectedProfession
         (swapFace (swapBody uploadedImage selectedProfession s.selectedAngle))⟩
  | _, _ => pending

/-- Whether the transform button is rendered:
`currentStep >= 3 && selectedProfession`. -/
def transformButtonRendered (s : State) : Bool :=
  decide (s.currentStep ≥ 3) && s.selectedProfession.isSome

/-- The `disabled` attribute of the transform button as rendered from state
`s`: `disabled={isProcessing}`. -/
def transformButtonDisabled (s : State) : Bool := s.isProcessing

/-- The synchronous part of `handleSwapFace` for the handler created by the
render of state `rendered`, run while the state cells hold `current`: the
handler reads `uploadedImage`, `selectedProfession` and `selectedAngle` as
constants of its render, and `setIsProcessing(true)` writes to the cells. It
never reads `isProcessing`. With `rendered = current` this is
`handleSwapFacePending`. -/
def handleSwapFacePendingAt (rendered current : State) : HandlerResult :=
  match rendered.uploadedImage, rendered.selectedProfession with
  | some uploadedImage, some selectedProfession =>
    ⟨{ current with isProcessing := true },
     [.swapFace (swapBody uploadedImage selectedProfession rendered.selectedAngle)]⟩
  | _, _ => ⟨current, [.toastError "Please select an image and profession"]⟩

/-- Body of the professions response as the client reads it. -/
structure ProfessionsResponse where
  professions : Option (List Profession)
deriving DecidableEq, Repr

/-- The handler `loadProfessions`, run once when the page mounts.
`getProfessions` is the service call (`.error e` when it throws `e`); a missing
`professions` field is read as `[]`. The `catch` block does not rethrow. -/
def loadProfessions (getProfessions : Unit → Except JsError ProfessionsResponse)
    (s : State) : AsyncResult :=
  match getProfessions () with
  | .ok data =>
    ⟨{ s with professions :=
        match data.professions with
        | some list => list
        | none => [] },
     [.getProfessions], .resolved⟩
  | .error error =>
    ⟨s, [.getProfessions, .toastError "Failed to load professions",
         .consoleError "Error loading professions:" error],
     .resolved⟩

/-- The handler `handleImageRemove`: `uploadedImage?.preview` is truthy when an
image is stored and its preview is a non-empty string. -/
def handleImageRemove (s : State) : HandlerResult :=
  let revoked : List Effect :=
    match s.uploadedImage with
    | some uploadedImage =>
      if uploadedImage.preview.data = [] then []
      else [.revokeObjectURL uploadedImage.preview]
    | none => []
  ⟨{ s with uploadedImage := none, selectedProfession := none, currentStep := 1 },
   revoked⟩

/-- The handler `handleProfessionSelect`. -/
def handleProfessionSelect (s : State) (profession : Profession) : HandlerResult :=
  ⟨{ s with selectedProfession := some profession, currentStep := 3 }, []⟩

/-- An entry of the constant `angles`. -/
structure Angle where
  id : String
  name : String
  icon : String
deriving DecidableEq, Repr

/-- The constant `angles` of `UploadPage`. -/
def angles : List Angle :=
  [ ⟨"front", "Front View", "👤"⟩,
    ⟨"side", "Side View", "👥"⟩,
    ⟨"three_quarter", "Three Quarter", "👤"⟩,
    ⟨"back", "Back View", "👤"⟩ ]

/-- The setter `setSelectedAngle`, as called by an angle tile's `onClick`. -/
def setSelectedAngle (s : State) (angleId : String) : State :=
  { s with selectedAngle := angleId }

/-! ## ResultPage.js -/

/-- The `useState` cells of `ResultPage`. -/
structure ResultState where
  result : Option SwapResponse
  originalImage : Option String
  profession : Option Profession
  isDownloading : Bool
deriving DecidableEq, Repr

/-- The initial values given to `useState` in `ResultPage`. -/
def ResultPage.initialState : ResultState :=
  { result := none, originalImage := none, profession := none, isDownloading := false }

/-- The effect hook of `ResultPage`, run with `location.state` (absent when the
screen is entered without navigation state). -/
def ResultPage.useEffect (locationState : Option NavigationState)
    (r : ResultState) : ResultState × List Effect :=
  match locationState with
  | some state =>
    ({ r with
        result := some state.result
        originalImage := some state.originalImage
        profession := some state.profession }, [])
  | none => (r, [.navigateTo "/upload"])

/-- What `ResultPage` returns: the loading placeholder, or the result view with
the sources of its two images and the profession name it prints. -/
inductive ResultView where
  | loading
  | result (originalSrc : String) (resultSrc : Option String) (professionName : String)
deriving DecidableEq, Repr

/-- The render of `ResultPage`: the guard
`!result || !originalImage || !profession` gives the loading placeholder. -/
def ResultPage.render (r : ResultState) : ResultView :=
  match r.result, r.originalImage, r.profession with
  | some result, some originalImage, some profession =>
    if originalImage.data = [] then .loading
    else .result originalImage result.result_url profession.name
  | _, _, _ => .loading

/-! ## The workflow as a transition system -/

/-- The events that change the state of `UploadPage`. -/
inductive Action where
  | loadProfessions (getProfessions : Unit → Except JsError ProfessionsResponse)
  | upload (uploadImage : FormData → Except JsError UploadResponse)
      (createObjectURL : File → String) (file : File)
  | removeImage
  | selectProfession (profession : Profession)
  | selectAngle (angle : Angle)
  | transformStart (rendered : State)
  | transform (swapFace : SwapRequest → Except JsError SwapResponse)

/-- Whether the page offers the action in state `s`: the upload widget is
rendered when `currentStep === 1`, the profession tiles when
`currentStep >= 2 && uploadedImage`, the angle tiles (one per entry of
`angles`) when `currentStep >= 3 && selectedProfession`. Removal and the
transform handler are offered in every state. -/
def Action.enabled (s : State) : Action → Bool
  | .loadProfessions _ => true
  | .upload _ _ _ => decide (s.currentStep = 1)
  | .removeImage => true
  | .selectProfession _ => decide (s.currentStep ≥ 2) && s.uploadedImage.isSome
  | .selectAngle angle =>
    decide (s.currentStep ≥ 3) && s.selectedProfession.isSome && decide (angle ∈ angles)
  | .transformStart _ => true
  | .transform _ => true

/-- The state after the action's handler has run. `transformStart rendered`
is the handler of the render of `rendered` run up to its `await` (request
outstanding), `transform` runs the handler to the end. -/
def Action.apply (s : State) : Action → State
  | .loadProfessions getProfessions => (AISwap.loadProfessions getProfessions s).state
  | .upload uploadImage createObjectURL file =>
    (handleImageUpload uploadImage createObjectURL s file).state
  | .removeImage => (handleImageRemove s).state
  | .selectProfession profession => (handleProfessionSelect s profession).state
  | .selectAngle angle => setSelectedAngle s angle.id
  | .transformStart rendered => (handleSwapFacePendingAt rendered s).state
  | .transform swapFace => (handleSwapFace swapFace s).state

/-- States reachable from `initialState` by enabled actions. -/
inductive Reachable : State → Prop where
  | init : Reachable initialState
  | step (s : State) (a : Action) :
      Reachable s → a.enabled s = true → Reachable (a.apply s)

/-- The workflow invariant: the step is 1, 2 or 3; it is 1 exactly when no image
is stored; it is 3 exactly when a profession is selected; the angle is one of
the four ids of `angles`. -/
def Invariant (s : State) : Prop :=
  (s.currentStep = 1 ∨ s.currentStep = 2 ∨ s.currentStep = 3) ∧
  (s.currentStep = 1 ↔ s.uploadedImage = none) ∧
  (s.currentStep = 3 ↔ s.selectedProfession ≠ none) ∧
  (s.selectedAngle = "front" ∨ s.selectedAngle = "side" ∨
    s.selectedAngle = "three_quarter" ∨ s.selectedAngle = "back")

/-! ## Sample inputs -/

/-- The file of the spec's scenario: `portrait.jpg`, 2 MB, `image/jpeg`. -/
def portrait : File := ⟨"portrait.jpg", "image/jpeg", 2097152⟩

/-- The profession of the spec's scenario. -/
def doctor : Profession := ⟨"doctor", "Doctor", none, none⟩

/-- A page at step 3: image "abc123" uploaded, doctor selected, angle "side". -/
def readyState : State :=
  { uploadedImage := some ⟨portrait, "blob:portrait", some "abc123", some true, none⟩
    professions := [doctor]
    selectedProfession := some doctor
    selectedAngle := "side"
    isProcessing := false
    currentStep := 3 }

/-- The page of `readyState` while a swap request is outstanding. -/
def busyState : State := { readyState with isProcessing := true }

end AISwap

namespace AISwap

/-! ## The upload widget -/

/-- C1: a drop whose first file has a MIME type not starting with "image/"
shows an error notification, never calls `onImageUpload`, and never enters the
uploading state (no `setIsUploading(true)`, flag left as it was). -/
theorem onDrop_rejects_non_image (onImageUpload : File → Except JsError Unit)
    (isUploading : Bool) (file : File) (rest : List File)
    (hType : startsWith file.type "image/" = false) :
    (∃ msg, Effect.toastError msg ∈ (onDrop onImageUpload isUploading (file :: rest)).effects) ∧
    (∀ e ∈ (onDrop onImageUpload isUploading (file :: rest)).effects,
      e.isOnImageUpload = false) ∧
    Effect.setIsUploading true ∉ (onDrop onImageUpload isUploading (file :: rest)).effects ∧
    (onDrop onImageUpload isUploading (file :: rest)).isUploading = isUploading := by
  simp [onDrop, hType, Effect.isOnImageUpload]

/-- Witness of C1 on a dropped text file. -/
theorem onDrop_rejects_non_image_witness :
    (∃ msg, Effect.toastError msg ∈
      (onDrop (fun _ => .ok ()) false [⟨"notes.txt", "text/plain", 120⟩]).effects) ∧
    (∀ e ∈ (onDrop (fun _ => .ok ()) false [⟨"notes.txt", "text/plain", 120⟩]).effects,
      e.isOnImageUpload = false) ∧
    Effect.setIsUploading true ∉
      (onDrop (fun _ => .ok ()) false [⟨"notes.txt", "text/plain", 120⟩]).effects ∧
    (onDrop (fun _ => .ok ()) false [⟨"notes.txt", "text/plain", 120⟩]).isUploading = false :=
  onDrop_rejects_non_image (fun _ => .ok ()) false ⟨"notes.txt", "text/plain", 120⟩ []
    (by decide)

/-- C2: a drop whose first file is larger than 10485760 bytes shows an error
notification and never calls `onImageUpload`, whatever the MIME type. -/
theorem onDrop_rejects_oversize (onImageUpload : File → Except JsError Unit)
    (isUploading : Bool) (file : File) (rest : List File)
    (hSize : file.size > 10485760) :
    (∃ msg, Effect.toastError msg ∈ (onDrop onImageUpload isUploading (file :: rest)).effects) ∧
    (∀ e ∈ (onDrop onImageUpload isUploading (file :: rest)).effects,
      e.isOnImageUpload = false) := by
  have hSize2 : file.size > 10 * 1024 * 1024 := by omega
  cases hType : startsWith file.type "image/" <;>
    simp [onDrop, hType, hSize2, Effect.isOnImageUpload]

/-- Witness of C2: a 15 MB `image/jpeg` file causes no upload call. -/
theorem onDrop_rejects_oversize_witness :
    (∃ msg, Effect.toastError msg ∈
      (onDrop (fun _ => .ok ()) false [⟨"big.jpg", "image/jpeg", 15000000⟩]).effects) ∧
    (∀ e ∈ (onDrop (fun _ => .ok ()) false [⟨"big.jpg", "image/jpeg", 15000000⟩]).effects,
      e.isOnImageUpload = false) :=
  onDrop_rejects_oversize (fun _ => .ok ()) false ⟨"big.jpg", "image/jpeg", 15000000⟩ []
    (by decide)

/-- C3 as stated fails: a drop of zero files shows no error notification. -/
theorem onDrop_empty_shows_no_error :
    ¬ ∃ msg, Effect.toastError msg ∈ (onDrop (fun _ => .ok ()) false []).effects := by
  simp [onDrop]

/-- C3, amended: a drop of zero files returns at once with no effect at all (no
notification, no call of `onImageUpload`, no `setIsUploading`) and leaves the
uploading flag as it was. -/
theorem onDrop_empty_silent (onImageUpload : File → Except JsError Unit)
    (isUploading : Bool) :
    (onDrop onImageUpload isUploading []).effects = [] ∧
    (onDrop onImageUpload isUploading []).isUploading = isUploading := by
  simp [onDrop]

/-- C4: a drop whose first file is an image of at most 10485760 bytes calls
`onImageUpload` exactly once, with that file, after entering the uploading
state; when the callback resolves the success notification is shown, no error
notification is, and the uploading flag ends false. -/
theorem onDrop_accepts_image (onImageUpload : File → Except JsError Unit)
    (isUploading : Bool) (file : File) (rest : List File)
    (hType : startsWith file.type "image/" = true)
    (hSize : file.size ≤ 10485760) :
    (onDrop onImageUpload isUploading (file :: rest)).effects.filter Effect.isOnImageUpload
      = [Effect.onImageUpload file] ∧
    (onDrop onImageUpload isUploading (file :: rest)).effects.take 2
      = [Effect.setIsUploading true, Effect.onImageUpload file] ∧
    (onImageUpload file = .ok () →
      (onDrop onImageUpload isUploading (file :: rest)).effects.filter Effect.isToast
        = [Effect.toastSuccess "Image uploaded successfully!"] ∧
      (onDrop onImageUpload isUploading (file :: rest)).effects.getLast?
        = some (Effect.setIsUploading false) ∧
      (onDrop onImageUpload isUploading (file :: rest)).isUploading = false) := by
  have hSize2 : ¬ file.size > 10 * 1024 * 1024 := by omega
  cases hCall : onImageUpload file <;>
    simp [onDrop, hType, hSize2, hCall, Effect.isOnImageUpload, Effect.isToast]

/-- Witness of C4 on a file of exactly 10 MiB. -/
theorem onDrop_accepts_image_witness :
    (onDrop (fun _ => .ok ()) false
        [⟨"portrait.jpg", "image/jpeg", 10485760⟩]).effects.filter Effect.isOnImageUpload
      = [Effect.onImageUpload ⟨"portrait.jpg", "image/jpeg", 10485760⟩] ∧
    (onDrop (fun _ => .ok ()) false
        [⟨"portrait.jpg", "image/jpeg", 10485760⟩]).effects.filter Effect.isToast
      = [Effect.toastSuccess "Image uploaded successfully!"] ∧
    (onDrop (fun _ => .ok ()) false
        [⟨"portrait.jpg", "image/jpeg", 10485760⟩]).isUploading = false :=
  have h := onDrop_accepts_image (fun _ => .ok ()) false
    ⟨"portrait.jpg", "image/jpeg", 10485760⟩ [] (by decide) (by decide)
  ⟨h.1, (h.2.2 rfl).1, (h.2.2 rfl).2.2⟩

/-- C5 as stated fails: when the callback rejects with message "Network Error",
the only error notification of the widget is its fixed text, not that message. -/
theorem onDrop_failure_hides_message :
    (onDrop (fun _ => .error ⟨some "Network Error"⟩) false
        [⟨"portrait.jpg", "image/jpeg", 2097152⟩]).effects.filter Effect.isToastError
      = [Effect.toastError "Failed to upload image. Please try again."] ∧
    Effect.toastError "Network Error" ∉
      (onDrop (fun _ => .error ⟨some "Network Error"⟩) false
        [⟨"portrait.jpg", "image/jpeg", 2097152⟩]).effects := by
  decide

/-- C5, amended: for an accepted file, when the callback rejects with `e` the
widget shows the one fixed failure notification "Failed to upload image. Please
try again.", whatever `e.message` is; `e` itself goes only to the console. -/
theorem onDrop_failure_fixed_message (onImageUpload : File → Except JsError Unit)
    (isUploading : Bool) (file : File) (rest : List File) (e : JsError)
    (hType : startsWith file.type "image/" = true)
    (hSize : file.size ≤ 10485760)
    (hCall : onImageUpload file = .error e) :
    (onDrop onImageUpload isUploading (file :: rest)).effects.filter Effect.isToast
      = [Effect.toastError "Failed to upload image. Please try again."] ∧
    Effect.consoleError "Upload error:" e ∈
      (onDrop onImageUpload isUploading (file :: rest)).effects := by
  have hSize2 : ¬ file.size > 10 * 1024 * 1024 := by omega
  simp [onDrop, hType, hSize2, hCall, Effect.isToast]

/-- Witness of the amended C5 on a callback rejecting with "Network Error". -/
theorem onDrop_failure_fixed_message_witness :
    (onDrop (fun _ => .error ⟨some "Network Error"⟩) true
        [⟨"portrait.jpg", "image/jpeg", 2097152⟩]).effects.filter Effect.isToast
      = [Effect.toastError "Failed to upload image. Please try again."] ∧
    Effect.consoleError "Upload error:" ⟨some "Network Error"⟩ ∈
      (onDrop (fun _ => .error ⟨some "Network Error"⟩) true
        [⟨"portrait.jpg", "image/jpeg", 2097152⟩]).effects :=
  onDrop_failure_fixed_message (fun _ => .error ⟨some "Network Error"⟩) true
    ⟨"portrait.jpg", "image/jpeg", 2097152⟩ [] ⟨some "Network Error"⟩
    (by decide) (by decide) rfl

/-! ## The workflow controller -/

theorem orString_none (fallback : String) : orString none fallback = fallback := rfl

theorem orString_empty (fallback : String) : orString (some "") fallback = fallback := rfl

theorem orString_some (m fallback : String) (h : m ≠ "") :
    orString (some m) fallback = m := by
  have hd : m.data ≠ [] := fun hd => h (String.ext hd)
  simp [orString, hd]

/-- C6: when the upload response has `success` true, `handleImageUpload`
resolves with `currentStep` 2 and an `uploadedImage` holding the given file and
the response's `image_id`; this holds for every value `faceDetected` of the
response's `face_detected` field, which is only recorded. -/
theorem handleImageUpload_success
    (uploadImage : FormData → Except JsError UploadResponse)
    (createObjectURL : File → String) (s : State) (file : File)
    (response : UploadResponse) (faceDetected : Option Bool)
    (hSuccess : response.success = some true)
    (hCall : uploadImage [("file", file)]
      = .ok { response with face_detected := faceDetected }) :
    (handleImageUpload uploadImage createObjectURL s file).state.currentStep = 2 ∧
    (handleImageUpload uploadImage createObjectURL s file).state.uploadedImage
      = some { file := file
               preview := createObjectURL file
               imageId := response.image_id
               faceDetected := faceDetected
               landmarks := response.landmarks } ∧
    (handleImageUpload uploadImage createObjectURL s file).outcome = .resolved ∧
    (handleImageUpload uploadImage createObjectURL s file).effects.filter Effect.isToast
      = [] := by
  simp [handleImageUpload, hCall, hSuccess, truthy, Effect.isToast]

/-- Witness of C6: `{success:true, image_id:"abc123", face_detected:true}`
gives step 2 with `imageId` "abc123". -/
theorem handleImageUpload_success_witness :
    (handleImageUpload (fun _ => .ok ⟨some true, some "abc123", some true, none, none⟩)
      (fun _ => "blob:portrait") initialState portrait).state.currentStep = 2 ∧
    (handleImageUpload (fun _ => .ok ⟨some true, some "abc123", some true, none, none⟩)
      (fun _ => "blob:portrait") initialState portrait).state.uploadedImage
      = some ⟨portrait, "blob:portrait", some "abc123", some true, none⟩ :=
  have h := handleImageUpload_success
    (fun _ => .ok ⟨some true, some "abc123", some true, none, none⟩)
    (fun _ => "blob:portrait") initialState portrait
    ⟨some true, some "abc123", none, none, none⟩ (some true) rfl rfl
  ⟨h.1, h.2.1⟩

/-- C7: when the upload call throws `e`, or returns a body whose `success` is
false or missing, `handleImageUpload` leaves the whole state unchanged, shows
exactly one notification, an error, and rejects (with `e` itself when the call
threw). For a body without success the text shown is the body's `message` when
present and non-empty, otherwise "Upload failed". -/
theorem handleImageUpload_failure
    (uploadImage : FormData → Except JsError UploadResponse)
    (createObjectURL : File → String) (s : State) (file : File) :
    (∀ e, uploadImage [("file", file)] = .error e →
      (handleImageUpload uploadImage createObjectURL s file).state = s ∧
      (∃ msg, (handleImageUpload uploadImage createObjectURL s file).effects.filter
        Effect.isToast = [Effect.toastError msg]) ∧
      (handleImageUpload uploadImage createObjectURL s file).outcome = .rejected e) ∧
    (∀ response, uploadImage [("file", file)] = .ok response →
      (response.success = some false ∨ response.success = none) →
      (handleImageUpload uploadImage createObjectURL s file).state = s ∧
      (∃ msg, (handleImageUpload uploadImage createObjectURL s file).effects.filter
        Effect.isToast = [Effect.toastError msg]) ∧
      (∃ e, (handleImageUpload uploadImage createObjectURL s file).outcome = .rejected e) ∧
      (∀ m, response.message = some m → m ≠ "" →
        (handleImageUpload uploadImage createObjectURL s file).effects.filter Effect.isToast
          = [Effect.toastError m] ∧
        (handleImageUpload uploadImage createObjectURL s file).outcome
          = .rejected ⟨some m⟩) ∧
      ((response.message = none ∨ response.message = some "") →
        (handleImageUpload uploadImage createObjectURL s file).effects.filter Effect.isToast
          = [Effect.toastError "Upload failed"] ∧
        (handleImageUpload uploadImage createObjectURL s file).outcome
          = .rejected ⟨some "Upload failed"⟩)) := by
  refine ⟨?_, ?_⟩
  · intro e hCall
    simp [handleImageUpload, hCall, Effect.isToast]
  · intro response hCall hSuccess
    have hFalsy : truthy response.success = false := by
      rcases hSuccess with h | h <;> simp [h, truthy]
    refine ⟨?_, ?_, ?_, ?_, ?_⟩
    · simp [handleImageUpload, hCall, hFalsy]
    · simp [handleImageUpload, hCall, hFalsy, Effect.isToast]
    · simp [handleImageUpload, hCall, hFalsy]
    · intro m hm hne
      have h1 : orString (some m) "Upload failed" = m := orString_some m _ hne
      have h2 : orString (some m) "Failed to upload image" = m := orString_some m _ hne
      simp [handleImageUpload, hCall, hFalsy, hm, h1, h2, Effect.isToast]
    · intro hm
      have h1 : orString response.message "Upload failed" = "Upload failed" := by
        rcases hm with h | h <;> rw [h] <;> rfl
      have h2 : orString (some "Upload failed") "Failed to upload image" = "Upload failed" := by
        decide
      simp [handleImageUpload, hCall, hFalsy, h1, h2, Effect.isToast]

/-- Witness of C7: a body `{success:false, message:"No face found"}` at the
initial state, and a thrown "Network Error". -/
theorem handleImageUpload_failure_witness :
    ((handleImageUpload (fun _ => .ok ⟨some false, none, none, none, some "No face found"⟩)
        (fun _ => "blob:portrait") initialState portrait).state = initialState ∧
      (handleImageUpload (fun _ => .ok ⟨some false, none, none, none, some "No face found"⟩)
        (fun _ => "blob:portrait") initialState portrait).effects.filter Effect.isToast
        = [Effect.toastError "No face found"]) ∧
    (handleImageUpload (fun _ => .error ⟨some "Network Error"⟩)
        (fun _ => "blob:portrait") initialState portrait).outcome
      = .rejected ⟨some "Network Error"⟩ :=
  have h := (handleImageUpload_failure
    (fun _ => .ok ⟨some false, none, none, none, some "No face found"⟩)
    (fun _ => "blob:portrait") initialState portrait).2
    ⟨some false, none, none, none, some "No face found"⟩ rfl (Or.inl rfl)
  have h2 := (handleImageUpload_failure (fun _ => .error ⟨some "Network Error"⟩)
    (fun _ => "blob:portrait") initialState portrait).1 ⟨some "Network Error"⟩ rfl
  ⟨⟨h.1, (h.2.2.2.1 "No face found" rfl (by decide)).1⟩, h2.2.2⟩

/-- C8: when `uploadedImage` or `selectedProfession` is null, `handleSwapFace`
issues no swap request, shows an error notification, does not navigate and
leaves every state field unchanged. In particular a state reached by an upload
that did not resolve, from a state without image, issues no swap request. -/
theorem handleSwapFace_precondition
    (swapFace : SwapRequest → Except JsError SwapResponse) (s : State)
    (hAbsent : s.uploadedImage = none ∨ s.selectedProfession = none) :
    (handleSwapFace swapFace s).effects.filter Effect.isSwapFace = [] ∧
    (∃ msg, Effect.toastError msg ∈ (handleSwapFace swapFace s).effects) ∧
    (handleSwapFace swapFace s).effects.filter Effect.isNavigate = [] ∧
    (handleSwapFace swapFace s).state = s ∧
    (∀ (uploadImage : FormData → Except JsError UploadResponse)
        (createObjectURL : File → String) (file : File),
      s.uploadedImage = none →
      (handleImageUpload uploadImage createObjectURL s file).outcome ≠ .resolved →
      (handleSwapFace swapFace
        (handleImageUpload uploadImage createObjectURL s file).state).effects.filter
          Effect.isSwapFace = []) := by
  have key : ∀ t : State, (t.uploadedImage = none ∨ t.selectedProfession = none) →
      handleSwapFace swapFace t
        = ⟨t, [Effect.toastError "Please select an image and profession"]⟩ := by
    intro t ht
    rcases ht with h | h
    · simp [handleSwapFace, handleSwapFacePending, h]
    · cases hu : t.uploadedImage <;> simp [handleSwapFace, handleSwapFacePending, h]
  refine ⟨?_, ?_, ?_, ?_, ?_⟩
  · rw [key s hAbsent]; rfl
  · rw [key s hAbsent]; exact ⟨_, List.mem_singleton.mpr rfl⟩
  · rw [key s hAbsent]; rfl
  · rw [key s hAbsent]
  · intro uploadImage createObjectURL file hNone hOutcome
    have hState : (handleImageUpload uploadImage createObjectURL s file).state = s := by
      unfold handleImageUpload at hOutcome ⊢
      cases hCall : uploadImage [("file", file)] with
      | error e => simp [hCall]
      | ok response =>
        cases hT : truthy response.success with
        | false => simp [hCall, hT]
        | true => simp [hCall, hT] at hOutcome
    rw [hState, key s (Or.inl hNone)]; rfl

/-- Witness of C8: at the initial state, and at a state with an image but no
profession selected. -/
theorem handleSwapFace_precondition_witness :
    (handleSwapFace (fun _ => .ok ⟨some true, some "https://cdn/out.jpg", none, none⟩)
      initialState).effects.filter Effect.isSwapFace = [] ∧
    (handleSwapFace (fun _ => .ok ⟨some true, some "https://cdn/out.jpg", none, none⟩)
      { readyState with selectedProfession := none }).state
      = { readyState with selectedProfession := none } :=
  ⟨(handleSwapFace_precondition _ initialState (Or.inl rfl)).1,
   (handleSwapFace_precondition _ { readyState with selectedProfession := none }
      (Or.inr rfl)).2.2.2.1⟩

/-- C9 as stated fails: the transform button rendered from `readyState` is shown
and enabled; its handler, invoked once, leaves `isProcessing` true with its
request outstanding; invoked a second time from the same render, in that state,
it issues a second request. Two invocations, the second while the first request
is outstanding, issue two requests. -/
theorem handleSwapFace_second_invocation_issues_request :
    transformButtonRendered readyState = true ∧
    transformButtonDisabled readyState = false ∧
    (handleSwapFacePendingAt readyState readyState).state = busyState ∧
    busyState.isProcessing = true ∧
    (handleSwapFacePendingAt readyState busyState).effects
      = [Effect.swapFace ⟨some "abc123", "doctor", "side"⟩] ∧
    (((handleSwapFacePendingAt readyState readyState).effects ++
      (handleSwapFacePendingAt readyState busyState).effects).filter
        Effect.isSwapFace).length = 2 := by
  decide

/-- C9, amended: while a swap request issued by `handleSwapFace` is outstanding
`isProcessing` is true, so the transform button rendered from that state has
`disabled` true; once the request has settled `isProcessing` is false and the
button rendered then is enabled. That attribute is the only gate: the handler
never reads `isProcessing`; whatever the state cells hold when it is invoked,
and whatever `isProcessing` was in its render, it issues one swap request when
its render had an image and a profession. -/
theorem handleSwapFace_gate_is_disabled_attribute
    (swapFace : SwapRequest → Except JsError SwapResponse) (rendered current : State)
    (uploadedImage : UploadedImage) (selectedProfession : Profession)
    (hImage : rendered.uploadedImage = some uploadedImage)
    (hProfession : rendered.selectedProfession = some selectedProfession) :
    (handleSwapFacePendingAt rendered current).state
      = { current with isProcessing := true } ∧
    transformButtonDisabled (handleSwapFacePendingAt rendered current).state = true ∧
    transformButtonDisabled (handleSwapFace swapFace rendered).state = false ∧
    (handleSwapFacePendingAt rendered current).effects
      = [Effect.swapFace
          { image_id := uploadedImage.imageId
            profession := selectedProfession.id
            angle := rendered.selectedAngle }] ∧
    (∀ b : Bool,
      (handleSwapFace swapFace { rendered with isProcessing := b }).effects
        = (handleSwapFace swapFace rendered).effects) ∧
    handleSwapFacePendingAt rendered rendered = handleSwapFacePending rendered := by
  refine ⟨?_, ?_, ?_, ?_, ?_, ?_⟩
  · simp [handleSwapFacePendingAt, hImage, hProfession]
  · simp [handleSwapFacePendingAt, hImage, hProfession, transformButtonDisabled]
  · simp [handleSwapFace, handleSwapFacePending, hImage, hProfession,
      transformButtonDisabled]
  · simp [handleSwapFacePendingAt, hImage, hProfession, swapBody]
  · intro b
    simp [handleSwapFace, handleSwapFacePending, hImage, hProfession]
  · simp [handleSwapFacePendingAt, handleSwapFacePending, hImage, hProfession]

/-- Witness of the amended C9: the handler of the render of `readyState`, run
while the cells hold `busyState`. -/
theorem handleSwapFace_gate_is_disabled_attribute_witness :
    transformButtonDisabled (handleSwapFacePendingAt readyState busyState).state = true ∧
    transformButtonDisabled
      (handleSwapFace (fun _ => .ok ⟨some true, some "https://cdn/out.jpg", none, none⟩)
        readyState).state = false ∧
    (handleSwapFacePendingAt readyState busyState).effects
      = [Effect.swapFace ⟨some "abc123", "doctor", "side"⟩] :=
  have h := handleSwapFace_gate_is_disabled_attribute
    (fun _ => .ok ⟨some true, some "https://cdn/out.jpg", none, none⟩)
    readyState busyState ⟨portrait, "blob:portrait", some "abc123", some true, none⟩
    doctor rfl rfl
  ⟨h.2.1, h.2.2.1, h.2.2.2.1⟩

/-- C10: with an uploaded image and a selected profession, one invocation of
`handleSwapFace` issues exactly one swap request, with body
`{image_id: uploadedImage.imageId, profession: selectedProfession.id,
angle: selectedAngle}`, however the call settles. -/
theorem handleSwapFace_one_request
    (swapFace : SwapRequest → Except JsError SwapResponse) (s : State)
    (uploadedImage : UploadedImage) (selectedProfession : Profession)
    (hImage : s.uploadedImage = some uploadedImage)
    (hProfession : s.selectedProfession = some selectedProfession) :
    (handleSwapFace swapFace s).effects.filter Effect.isSwapFace
      = [Effect.swapFace
          { image_id := uploadedImage.imageId
            profession := selectedProfession.id
            angle := s.selectedAngle }] := by
  simp only [handleSwapFace, handleSwapFacePending, hImage, hProfession, swapBody,
    handleSwapFaceSettled]
  cases swapFace ⟨uploadedImage.imageId, selectedProfession.id, s.selectedAngle⟩ with
  | error e => simp [Effect.isSwapFace]
  | ok response =>
    cases hT : truthy response.success <;> simp [Effect.isSwapFace, hT]

/-- Witness of C10: imageId "abc123", profession "doctor", angle "side". -/
theorem handleSwapFace_one_request_witness :
    (handleSwapFace (fun _ => .ok ⟨some true, some "https://cdn/out.jpg", none, none⟩)
      readyState).effects.filter Effect.isSwapFace
      = [Effect.swapFace ⟨some "abc123", "doctor", "side"⟩] :=
  handleSwapFace_one_request _ readyState
    ⟨portrait, "blob:portrait", some "abc123", some true, none⟩ doctor rfl rfl

/-- C11: with an image and a profession present, a swap response with `success`
true makes `handleSwapFace` navigate exactly once, to "/result", with state
`{result: response, originalImage: uploadedImage.preview, profession:
selectedProfession}`; `ResultPage` then stores that response, and whenever it
renders the result the image source is the response's `result_url` (it does
render it when the preview is non-empty). Any other response, or a throw,
causes no navigation. -/
theorem handleSwapFace_navigates
    (swapFace : SwapRequest → Except JsError SwapResponse) (s : State)
    (uploadedImage : UploadedImage) (selectedProfession : Profession)
    (hImage : s.uploadedImage = some uploadedImage)
    (hProfession : s.selectedProfession = some selectedProfession) :
    (∀ response,
      swapFace (swapBody uploadedImage selectedProfession s.selectedAngle) = .ok response →
      response.success = some true →
      (handleSwapFace swapFace s).effects.filter Effect.isNavigate
        = [Effect.navigate "/result"
            { result := response
              originalImage := uploadedImage.preview
              profession := selectedProfession }] ∧
      (ResultPage.useEffect
          (some ⟨response, uploadedImage.preview, selectedProfession⟩)
          ResultPage.initialState).1.result = some response ∧
      (∀ originalSrc resultSrc professionName,
        ResultPage.render (ResultPage.useEffect
          (some ⟨response, uploadedImage.preview, selectedProfession⟩)
          ResultPage.initialState).1 = .result originalSrc resultSrc professionName →
        resultSrc = response.result_url) ∧
      (uploadedImage.preview ≠ "" →
        ResultPage.render (ResultPage.useEffect
          (some ⟨response, uploadedImage.preview, selectedProfession⟩)
          ResultPage.initialState).1
          = .result uploadedImage.preview response.result_url selectedProfession.name)) ∧
    (∀ response,
      swapFace (swapBody uploadedImage selectedProfession s.selectedAngle) = .ok response →
      response.success ≠ some true →
      (handleSwapFace swapFace s).effects.filter Effect.isNavigate = []) ∧
    (∀ e,
      swapFace (swapBody uploadedImage selectedProfession s.selectedAngle) = .error e →
      (handleSwapFace swapFace s).effects.filter Effect.isNavigate = []) := by
  refine ⟨?_, ?_, ?_⟩
  · intro response hCall hSuccess
    refine ⟨?_, rfl, ?_, ?_⟩
    · simp [handleSwapFace, handleSwapFacePending, handleSwapFaceSettled, hImage,
        hProfession, hCall, hSuccess, truthy, Effect.isNavigate]
    · intro originalSrc resultSrc professionName hView
      simp only [ResultPage.useEffect, ResultPage.render, ResultPage.initialState] at hView
      split at hView
      · cases hView
      · cases hView; rfl
    · intro hne
      have hd : uploadedImage.preview.data ≠ [] := fun hd => hne (String.ext hd)
      simp [ResultPage.useEffect, ResultPage.render, ResultPage.initialState, hd]
  · intro response hCall hSuccess
    have hFalsy : truthy response.success = false := by
      cases hs : response.success with
      | none => rfl
      | some b => cases b with
        | false => rfl
        | true => exact absurd hs hSuccess
    simp [handleSwapFace, handleSwapFacePending, handleSwapFaceSettled, hImage,
      hProfession, hCall, hFalsy, Effect.isNavigate]
  · intro e hCall
    simp [handleSwapFace, handleSwapFacePending, handleSwapFaceSettled, hImage,
      hProfession, hCall, Effect.isNavigate]

/-- Witness of C11: the response `{success:true, result_url:"https://cdn/out.jpg"}`
from `readyState` navigates once and is rendered with that URL. -/
theorem handleSwapFace_navigates_witness :
    (handleSwapFace (fun _ => .ok ⟨some true, some "https://cdn/out.jpg", none, none⟩)
      readyState).effects.filter Effect.isNavigate
      = [Effect.navigate "/result"
          ⟨⟨some true, some "https://cdn/out.jpg", none, none⟩, "blob:portrait", doctor⟩] ∧
    ResultPage.render (ResultPage.useEffect
      (some ⟨⟨some true, some "https://cdn/out.jpg", none, none⟩, "blob:portrait", doctor⟩)
      ResultPage.initialState).1
      = .result "blob:portrait" (some "https://cdn/out.jpg") "Doctor" :=
  have h := (handleSwapFace_navigates
    (fun _ => .ok ⟨some true, some "https://cdn/out.jpg", none, none⟩) readyState
    ⟨portrait, "blob:portrait", some "abc123", some true, none⟩ doctor rfl rfl).1
    ⟨some true, some "https://cdn/out.jpg", none, none⟩ rfl rfl
  ⟨h.1, h.2.2.2 (by decide)⟩

/-- C12: at step 3 with an image and a profession, when the swap call throws or
returns a body whose `success` is false, `handleSwapFace` shows exactly one
notification, an error, does not navigate, and leaves the state as it was except
`isProcessing`, which ends false; the transform button rendered from that
state is shown and enabled, and its handler issues the request again. For a body with success false the text is the body's `message` when
present and non-empty, otherwise "Face swap failed". -/
theorem handleSwapFace_failure
    (swapFace : SwapRequest → Except JsError SwapResponse) (s : State)
    (uploadedImage : UploadedImage) (selectedProfession : Profession)
    (hStep : s.currentStep = 3)
    (hImage : s.uploadedImage = some uploadedImage)
    (hProfession : s.selectedProfession = some selectedProfession)
    (hFail : (∃ e, swapFace (swapBody uploadedImage selectedProfession s.selectedAngle)
        = .error e) ∨
      (∃ response, swapFace (swapBody uploadedImage selectedProfession s.selectedAngle)
        = .ok response ∧ response.success = some false)) :
    (handleSwapFace swapFace s).state = { s with isProcessing := false } ∧
    (handleSwapFace swapFace s).state.currentStep = 3 ∧
    (handleSwapFace swapFace s).state.uploadedImage = some uploadedImage ∧
    (handleSwapFace swapFace s).state.selectedProfession = some selectedProfession ∧
    (handleSwapFace swapFace s).state.selectedAngle = s.selectedAngle ∧
    (handleSwapFace swapFace s).state.isProcessing = false ∧
    (∃ msg, (handleSwapFace swapFace s).effects.filter Effect.isToast
      = [Effect.toastError msg]) ∧
    (handleSwapFace swapFace s).effects.filter Effect.isNavigate = [] ∧
    (transformButtonRendered (handleSwapFace swapFace s).state = true ∧
      transformButtonDisabled (handleSwapFace swapFace s).state = false ∧
      (handleSwapFacePending (handleSwapFace swapFace s).state).effects
        = [Effect.swapFace
            (swapBody uploadedImage selectedProfession s.selectedAngle)]) ∧
    (∀ response m,
      swapFace (swapBody uploadedImage selectedProfession s.selectedAngle) = .ok response →
      response.message = some m → m ≠ "" →
      (handleSwapFace swapFace s).effects.filter Effect.isToast = [Effect.toastError m]) ∧
    (∀ response,
      swapFace (swapBody uploadedImage selectedProfession s.selectedAngle) = .ok response →
      (response.message = none ∨ response.message = some "") →
      (handleSwapFace swapFace s).effects.filter Effect.isToast
        = [Effect.toastError "Face swap failed"]) ∧
    (∀ e m,
      swapFace (swapBody uploadedImage selectedProfession s.selectedAngle) = .error e →
      e.message = some m → m ≠ "" →
      (handleSwapFace swapFace s).effects.filter Effect.isToast = [Effect.toastError m]) := by
  have hState : (handleSwapFace swapFace s).state = { s with isProcessing := false } := by
    simp [handleSwapFace, handleSwapFacePending, hImage, hProfession]
  have hEffects : ∃ msg, (handleSwapFace swapFace s).effects
      = [Effect.swapFace (swapBody uploadedImage selectedProfession s.selectedAngle),
         Effect.toastError msg] ∧
      (∀ response m,
        swapFace (swapBody uploadedImage selectedProfession s.selectedAngle) = .ok response →
        response.message = some m → m ≠ "" → msg = m) ∧
      (∀ response,
        swapFace (swapBody uploadedImage selectedProfession s.selectedAngle) = .ok response →
        (response.message = none ∨ response.message = some "") →
        msg = "Face swap failed") ∧
      (∀ e m,
        swapFace (swapBody uploadedImage selectedProfession s.selectedAngle) = .error e →
        e.message = some m → m ≠ "" → msg = m) := by
    rcases hFail with ⟨e, hCall⟩ | ⟨response, hCall, hSuccess⟩
    · refine ⟨orString e.message "Failed to process face swap", ?_, ?_, ?_, ?_⟩
      · simp [handleSwapFace, handleSwapFacePending, handleSwapFaceSettled, hImage,
          hProfession, hCall]
      · intro response m hCall2; rw [hCall] at hCall2; cases hCall2
      · intro response hCall2; rw [hCall] at hCall2; cases hCall2
      · intro e2 m hCall2 hm hne
        rw [hCall] at hCall2
        cases hCall2
        rw [hm]; exact orString_some m _ hne
    · refine ⟨orString (some (orString response.message "Face swap failed"))
        "Failed to process face swap", ?_, ?_, ?_, ?_⟩
      · simp [handleSwapFace, handleSwapFacePending, handleSwapFaceSettled, hImage,
          hProfession, hCall, hSuccess, truthy]
      · intro response2 m hCall2 hm hne
        rw [hCall] at hCall2
        cases hCall2
        rw [hm, orString_some m _ hne, orString_some m _ hne]
      · intro response2 hCall2 hm
        rw [hCall] at hCall2
        cases hCall2
        have h1 : orString response.message "Face swap failed" = "Face swap failed" := by
          rcases hm with h | h <;> rw [h] <;> rfl
        rw [h1]; decide
      · intro e m hCall2; rw [hCall] at hCall2; cases hCall2
  obtain ⟨msg, hEff, hBody, hBodyNone, hThrown⟩ := hEffects
  refine ⟨hState, ?_, ?_, ?_, ?_, ?_, ⟨msg, ?_⟩, ?_, ?_, ?_, ?_, ?_⟩
  · rw [hState]; exact hStep
  · rw [hState]; exact hImage
  · rw [hState]; exact hProfession
  · rw [hState]
  · rw [hState]
  · rw [hEff]; rfl
  · rw [hEff]; rfl
  · rw [hState]
    simp [transformButtonRendered, transformButtonDisabled, handleSwapFacePending, hStep,
      hImage, hProfession]
  · intro response m hCall hm hne
    rw [hEff, hBody response m hCall hm hne]; rfl
  · intro response hCall hm
    rw [hEff, hBodyNone response hCall hm]; rfl
  · intro e m hCall hm hne
    rw [hEff, hThrown e m hCall hm hne]; rfl

/-- Witness of C12: the body `{success:false}` from `busyState` shows "Face swap
failed" and gives back `readyState`. -/
theorem handleSwapFace_failure_witness :
    (handleSwapFace (fun _ => .ok ⟨some false, none, none, none⟩) busyState).state
      = readyState ∧
    (handleSwapFace (fun _ => .ok ⟨some false, none, none, none⟩)
      busyState).effects.filter Effect.isToast = [Effect.toastError "Face swap failed"] :=
  have h := handleSwapFace_failure (fun _ => .ok ⟨some false, none, none, none⟩) busyState
    ⟨portrait, "blob:portrait", some "abc123", some true, none⟩ doctor rfl rfl rfl
    (Or.inr ⟨⟨some false, none, none, none⟩, rfl, rfl⟩)
  ⟨h.1, h.2.2.2.2.2.2.2.2.2.2.1 ⟨some false, none, none, none⟩ rfl (Or.inl rfl)⟩

/-- C13: from every state `handleImageRemove` yields `currentStep` 1 with
`uploadedImage` and `selectedProfession` null, leaves `selectedAngle`, the
catalog and `isProcessing` as they were, revokes the preview URL of the stored
image when it has one (a non-empty string), and otherwise does nothing else. -/
theorem handleImageRemove_resets (s : State) :
    (handleImageRemove s).state.currentStep = 1 ∧
    (handleImageRemove s).state.uploadedImage = none ∧
    (handleImageRemove s).state.selectedProfession = none ∧
    (handleImageRemove s).state.selectedAngle = s.selectedAngle ∧
    (handleImageRemove s).state.professions = s.professions ∧
    (handleImageRemove s).state.isProcessing = s.isProcessing ∧
    (∀ uploadedImage, s.uploadedImage = some uploadedImage →
      uploadedImage.preview ≠ "" →
      (handleImageRemove s).effects = [Effect.revokeObjectURL uploadedImage.preview]) ∧
    (s.uploadedImage = none → (handleImageRemove s).effects = []) := by
  refine ⟨rfl, rfl, rfl, rfl, rfl, rfl, ?_, ?_⟩
  · intro uploadedImage hImage hne
    have hd : uploadedImage.preview.data ≠ [] := fun hd => hne (String.ext hd)
    simp [handleImageRemove, hImage, hd]
  · intro hImage
    simp [handleImageRemove, hImage]

/-- Witness of C13: removal at step 3 with the doctor selected. -/
theorem handleImageRemove_resets_witness :
    (handleImageRemove readyState).state
      = { readyState with uploadedImage := none, selectedProfession := none,
                          currentStep := 1 } ∧
    (handleImageRemove readyState).effects = [Effect.revokeObjectURL "blob:portrait"] :=
  ⟨rfl, (handleImageRemove_resets readyState).2.2.2.2.2.2.1
    ⟨portrait, "blob:portrait", some "abc123", some true, none⟩ rfl (by decide)⟩

/-- C14: for every profession `p`, `handleProfessionSelect p` yields
`currentStep` 3 and `selectedProfession` `p`, leaving `uploadedImage`,
`selectedAngle`, the catalog and `isProcessing` unchanged and performing no
effect; a second selection `q` replaces `p` and stays at step 3. -/
theorem handleProfessionSelect_advances (s : State) (p q : Profession) :
    (handleProfessionSelect s p).state.currentStep = 3 ∧
    (handleProfessionSelect s p).state.selectedProfession = some p ∧
    (handleProfessionSelect s p).state.uploadedImage = s.uploadedImage ∧
    (handleProfessionSelect s p).state.selectedAngle = s.selectedAngle ∧
    (handleProfessionSelect s p).state.professions = s.professions ∧
    (handleProfessionSelect s p).state.isProcessing = s.isProcessing ∧
    (handleProfessionSelect s p).effects = [] ∧
    (handleProfessionSelect (handleProfessionSelect s p).state q).state.currentStep = 3 ∧
    (handleProfessionSelect (handleProfessionSelect s p).state q).state.selectedProfession
      = some q :=
  ⟨rfl, rfl, rfl, rfl, rfl, rfl, rfl, rfl, rfl⟩

/-- Witness of C14: selecting `{id:"doctor", name:"Doctor"}` gives step 3 with
`selectedProfession.id` "doctor". -/
theorem handleProfessionSelect_advances_witness :
    (handleProfessionSelect initialState doctor).state.currentStep = 3 ∧
    (handleProfessionSelect initialState doctor).state.selectedProfession.map Profession.id
      = some "doctor" :=
  ⟨(handleProfessionSelect_advances initialState doctor doctor).1,
   congrArg (Option.map Profession.id)
     (handleProfessionSelect_advances initialState doctor doctor).2.1⟩

/-- C15: `loadProfessions` always resolves. When the call returns, the catalog
becomes the body's `professions` list, or `[]` when the body has none, and the
other fields are untouched; when the call throws, the state is unchanged and
exactly one notification, an error, is shown. -/
theorem loadProfessions_catalog
    (getProfessions : Unit → Except JsError ProfessionsResponse) (s : State) :
    (loadProfessions getProfessions s).outcome = .resolved ∧
    (∀ data list, getProfessions () = .ok data → data.professions = some list →
      (loadProfessions getProfessions s).state = { s with professions := list }) ∧
    (∀ data, getProfessions () = .ok data → data.professions = none →
      (loadProfessions getProfessions s).state = { s with professions := [] }) ∧
    (∀ e, getProfessions () = .error e →
      (loadProfessions getProfessions s).state = s ∧
      (loadProfessions getProfessions s).effects.filter Effect.isToast
        = [Effect.toastError "Failed to load professions"]) := by
  refine ⟨?_, ?_, ?_, ?_⟩
  · unfold loadProfessions
    cases getProfessions () <;> rfl
  · intro data list hCall hList
    simp [loadProfessions, hCall, hList]
  · intro data hCall hList
    simp [loadProfessions, hCall, hList]
  · intro e hCall
    simp [loadProfessions, hCall, Effect.isToast]

/-- Witness of C15: a body with one profession, a body without the field, and
a thrown error, at the initial state. -/
theorem loadProfessions_catalog_witness :
    (loadProfessions (fun _ => .ok ⟨some [doctor]⟩) initialState).state.professions
      = [doctor] ∧
    (loadProfessions (fun _ => .ok ⟨none⟩) readyState).state.professions = [] ∧
    (loadProfessions (fun _ => .error ⟨some "Network Error"⟩) readyState).state
      = readyState :=
  ⟨congrArg State.professions
     ((loadProfessions_catalog (fun _ => .ok ⟨some [doctor]⟩) initialState).2.1
       ⟨some [doctor]⟩ [doctor] rfl rfl),
   congrArg State.professions
     ((loadProfessions_catalog (fun _ => .ok ⟨none⟩) readyState).2.2.1 ⟨none⟩ rfl rfl),
   ((loadProfessions_catalog (fun _ => .error ⟨some "Network Error"⟩) readyState).2.2.2
     ⟨some "Network Error"⟩ rfl).1⟩

/-- C16: entered without navigation state, `ResultPage` navigates to "/upload",
keeps its state, and from its initial state renders the loading placeholder,
not a result; entered with navigation state it performs no navigation and its
`result`, `originalImage` and `profession` are exactly those of that state. -/
theorem ResultPage_requires_state (r : ResultState) (state : NavigationState) :
    ResultPage.useEffect none r = (r, [Effect.navigateTo "/upload"]) ∧
    ResultPage.render (ResultPage.useEffect none ResultPage.initialState).1 = .loading ∧
    (ResultPage.useEffect (some state) r).2 = [] ∧
    (ResultPage.useEffect (some state) r).1.result = some state.result ∧
    (ResultPage.useEffect (some state) r).1.originalImage = some state.originalImage ∧
    (ResultPage.useEffect (some state) r).1.profession = some state.profession ∧
    (ResultPage.useEffect (some state) r).1.isDownloading = r.isDownloading :=
  ⟨rfl, rfl, rfl, rfl, rfl, rfl, rfl⟩

/-! ## The workflow invariant -/

/-- The invariant reads only the step, the image, the profession and the angle. -/
theorem Invariant.of_same_fields {s t : State} (h : Invariant s)
    (hStep : t.currentStep = s.currentStep) (hImage : t.uploadedImage = s.uploadedImage)
    (hProfession : t.selectedProfession = s.selectedProfession)
    (hAngle : t.selectedAngle = s.selectedAngle) : Invariant t := by
  unfold Invariant at h ⊢
  rw [hStep, hImage, hProfession, hAngle]
  exact h

theorem Invariant.initial : Invariant initialState := by
  unfold Invariant initialState
  simp

theorem Invariant.loadProfessions {s : State} (h : Invariant s)
    (getProfessions : Unit → Except JsError ProfessionsResponse) :
    Invariant (AISwap.loadProfessions getProfessions s).state := by
  unfold AISwap.loadProfessions
  cases getProfessions () with
  | error e => exact h
  | ok data => exact h.of_same_fields rfl rfl rfl rfl

theorem Invariant.upload {s : State} (h : Invariant s) (hStep : s.currentStep = 1)
    (uploadImage : FormData → Except JsError UploadResponse)
    (createObjectURL : File → String) (file : File) :
    Invariant (handleImageUpload uploadImage createObjectURL s file).state := by
  cases hCall : uploadImage [("file", file)] with
  | error e =>
    have hState : (handleImageUpload uploadImage createObjectURL s file).state = s := by
      simp [handleImageUpload, hCall]
    rw [hState]; exact h
  | ok response =>
    cases hT : truthy response.success with
    | false =>
      have hState : (handleImageUpload uploadImage createObjectURL s file).state = s := by
        simp [handleImageUpload, hCall, hT]
      rw [hState]; exact h
    | true =>
      have hState : (handleImageUpload uploadImage createObjectURL s file).state
          = { s with
              uploadedImage := some
                { file := file
                  preview := createObjectURL file
                  imageId := response.image_id
                  faceDetected := response.face_detected
                  landmarks := response.landmarks }
              currentStep := 2 } := by
        simp [handleImageUpload, hCall, hT]
      obtain ⟨_, _, h3, h4⟩ := h
      have hNone : s.selectedProfession = none := by
        by_contra hp
        have := h3.mpr hp
        omega
      rw [hState]
      refine ⟨Or.inr (Or.inl rfl), ?_, ?_, h4⟩
      · simp
      · simp [hNone]

theorem Invariant.removeImage {s : State} (h : Invariant s) :
    Invariant (handleImageRemove s).state := by
  obtain ⟨_, _, _, h4⟩ := h
  refine ⟨Or.inl rfl, ?_, ?_, h4⟩
  · simp [handleImageRemove]
  · simp [handleImageRemove]

theorem Invariant.selectProfession {s : State} (h : Invariant s)
    (hImage : s.uploadedImage ≠ none) (profession : Profession) :
    Invariant (handleProfessionSelect s profession).state := by
  obtain ⟨_, _, _, h4⟩ := h
  refine ⟨Or.inr (Or.inr rfl), ?_, ?_, h4⟩
  · simp [handleProfessionSelect, hImage]
  · simp [handleProfessionSelect]

theorem Invariant.selectAngle {s : State} (h : Invariant s) (angle : Angle)
    (hAngle : angle ∈ angles) : Invariant (setSelectedAngle s angle.id) := by
  obtain ⟨h1, h2, h3, _⟩ := h
  refine ⟨h1, h2, h3, ?_⟩
  simp only [angles, List.mem_cons, List.mem_singleton, List.not_mem_nil, or_false] at hAngle
  rcases hAngle with rfl | rfl | rfl | rfl <;> simp [setSelectedAngle]

theorem Invariant.transformStart {s : State} (h : Invariant s) (rendered : State) :
    Invariant (handleSwapFacePendingAt rendered s).state := by
  unfold handleSwapFacePendingAt
  split
  · exact h.of_same_fields rfl rfl rfl rfl
  · exact h

theorem Invariant.transform {s : State} (h : Invariant s)
    (swapFace : SwapRequest → Except JsError SwapResponse) :
    Invariant (handleSwapFace swapFace s).state := by
  unfold handleSwapFace handleSwapFacePending
  split
  · exact h.of_same_fields rfl rfl rfl rfl
  · exact h

theorem Invariant.step {s : State} (h : Invariant s) (a : Action)
    (hEnabled : a.enabled s = true) : Invariant (a.apply s) := by
  cases a with
  | loadProfessions getProfessions => exact h.loadProfessions getProfessions
  | upload uploadImage createObjectURL file =>
    have hStep : s.currentStep = 1 := by simpa [Action.enabled] using hEnabled
    exact h.upload hStep uploadImage createObjectURL file
  | removeImage => exact h.removeImage
  | selectProfession profession =>
    have hImage : s.uploadedImage ≠ none := by
      intro hNone
      simp [Action.enabled, hNone] at hEnabled
    exact h.selectProfession hImage profession
  | selectAngle angle =>
    have hAngle : angle ∈ angles := by
      simp only [Action.enabled, Bool.and_eq_true, decide_eq_true_eq] at hEnabled
      exact hEnabled.2
    exact h.selectAngle angle hAngle
  | transformStart rendered => exact h.transformStart rendered
  | transform swapFace => exact h.transform swapFace

/-- C17: every state reachable from the initial state by the actions the page
enables has `currentStep` 1, 2 or 3, `currentStep` 1 exactly when
`uploadedImage` is null, `currentStep` 3 exactly when `selectedProfession` is
non-null, and `selectedAngle` among front, side, three_quarter, back. -/
theorem reachable_invariant (s : State) (hReachable : Reachable s) :
    (s.currentStep = 1 ∨ s.currentStep = 2 ∨ s.currentStep = 3) ∧
    (s.currentStep = 1 ↔ s.uploadedImage = none) ∧
    (s.currentStep = 3 ↔ s.selectedProfession ≠ none) ∧
    (s.selectedAngle = "front" ∨ s.selectedAngle = "side" ∨
      s.selectedAngle = "three_quarter" ∨ s.selectedAngle = "back") := by
  have hInv : Invariant s := by
    induction hReachable with
    | init => exact Invariant.initial
    | step s a _ hEnabled ih => exact ih.step a hEnabled
  exact hInv

/-- Witness of C17: `readyState` is reached by loading the catalog, uploading
`portrait.jpg`, selecting the doctor and then the side angle. -/
theorem reachable_invariant_witness :
    Reachable readyState ∧
    (readyState.currentStep = 1 ∨ readyState.currentStep = 2 ∨
      readyState.currentStep = 3) ∧
    (readyState.currentStep = 1 ↔ readyState.uploadedImage = none) ∧
    (readyState.currentStep = 3 ↔ readyState.selectedProfession ≠ none) ∧
    (readyState.selectedAngle = "front" ∨ readyState.selectedAngle = "side" ∨
      readyState.selectedAngle = "three_quarter" ∨ readyState.selectedAngle = "back") :=
  have h1 : Reachable ((Action.loadProfessions (fun _ => .ok ⟨some [doctor]⟩)).apply
      initialState) :=
    Reachable.step _ _ Reachable.init rfl
  have h2 : Reachable ((Action.upload
      (fun _ => .ok ⟨some true, some "abc123", some true, none, none⟩)
      (fun _ => "blob:portrait") portrait).apply _) :=
    Reachable.step _ _ h1 (by decide)
  have h3 : Reachable ((Action.selectProfession doctor).apply _) :=
    Reachable.step _ _ h2 (by decide)
  have h4 : Reachable ((Action.selectAngle ⟨"side", "Side View", "👥"⟩).apply _) :=
    Reachable.step _ _ h3 (by decide)
  have hReady : Reachable readyState := h4
  ⟨hReady, reachable_invariant readyState hReady⟩

end AISwap
